import Mathlib

/-!
# Lyve Cloud Terraform provider: permission and service-account resource handlers

Shallow embedding of `lyvecloud/resource_permission_v2.go` and
`lyvecloud/resource_service_account.go`.

* `schema.ResourceData` (plugin SDK) is embedded as a schema-indexed attribute store with the
  SDK operations the handlers use: `Id`, `SetId`, `Get`, `GetOk`, `Set`.  Keys are the string
  literals of the source, looked up in the schema exactly as the SDK does, so a key that the
  schema does not declare behaves as in the SDK: `Get` yields the nil interface, `GetOk` yields
  `(nil, false)` and `Set` returns an error without writing.
* The API clients are external: a client is a record of transition functions over an arbitrary
  remote state, and every invocation is appended to a call log.
* `CheckCredentials` and `NameWithSuffix` are declared outside the two source files and are
  taken as parameters (`Env`).
* A failed Go type assertion (a panic) is the `none` result of a handler.
-/

namespace Lyvecloud

/-! ## Errors -/

/-- Go error values: a plain message, or a message that wraps a cause (the `%w` verb of
`fmt.Errorf`). -/
inductive Error where
  | msg (text : String)
  | wrap (text : String) (cause : Error)
  deriving DecidableEq, Repr

/-! ## Schema values -/

/-- The `schema.ValueType`s used by the two resources. -/
inductive ValueType where
  | TypeBool
  | TypeString
  | TypeList
  deriving DecidableEq, Repr

/-- A Go `interface{}` as the SDK hands it to a handler.  Both list attributes have
`Elem: TypeString`, so the elements of a list value are strings. -/
inductive Value where
  | nil
  | bool (b : Bool)
  | str (s : String)
  | list (l : List String)
  deriving DecidableEq, Repr

/-- The zero value of a schema type (`ValueType.Zero`). -/
def ValueType.Zero : ValueType → Value
  | .TypeBool => .bool false
  | .TypeString => .str ""
  | .TypeList => .list []

/-- Type assertion `v.(string)`; `none` is the panic of a failed assertion. -/
def Value.assertString : Value → Option String
  | .str s => some s
  | _ => none

/-- Type assertion `v.([]interface{})`; `none` is the panic of a failed assertion. -/
def Value.assertList : Value → Option (List String)
  | .list l => some l
  | _ => none

/-- A resource schema: attribute name to declared type (`map[string]*schema.Schema`). -/
abbrev Schema := List (String × ValueType)

/-- Schema of `ResourcePermissionV2` (attribute names and types). -/
def PermissionV2Schema : Schema :=
  [ ("name", .TypeString),
    ("name_prefix", .TypeString),
    ("description", .TypeString),
    ("type", .TypeString),
    ("actions", .TypeString),
    ("all_buckets", .TypeBool),
    ("buckets_prefix", .TypeString),
    ("buckets", .TypeList),
    ("ready_state", .TypeBool),
    ("id", .TypeString) ]

/-- Schema of `ResourceServiceAccount` (attribute names and types). -/
def ServiceAccountSchema : Schema :=
  [ ("service_account", .TypeString),
    ("description", .TypeString),
    ("permissions", .TypeList),
    ("access_key", .TypeString),
    ("access_secret", .TypeString),
    ("id", .TypeString) ]

/-! ## ResourceData -/

/-- Point update of an attribute store. -/
def put {α : Type} (f : String → Option α) (key : String) (v : α) : String → Option α :=
  fun k => if k = key then some v else f k

/-- The SDK `schema.ResourceData` of a resource with schema `sch`: the resource identifier
(`d.Id()`) and the merged attribute view, one store per schema type (`none`: the attribute does
not exist). -/
structure ResourceData (sch : Schema) where
  id : String
  bools : String → Option Bool
  strings : String → Option String
  lists : String → Option (List String)

namespace ResourceData

variable {sch : Schema}

/-- `d.Id()`. -/
def Id (d : ResourceData sch) : String := d.id

/-- `d.SetId(v)`: sets the identifier and writes the `id` attribute. -/
def SetId (d : ResourceData sch) (v : String) : ResourceData sch :=
  { d with id := v, strings := put d.strings "id" v }

/-- The raw read of a key: `none` when the key is not in the schema or the attribute does not
exist. -/
def getRaw (d : ResourceData sch) (key : String) : Option Value :=
  match sch.lookup key with
  | none => none
  | some .TypeBool => (d.bools key).map Value.bool
  | some .TypeString => (d.strings key).map Value.str
  | some .TypeList => (d.lists key).map Value.list

/-- `d.Get(key)`: the value, or the zero value of the declared type when the attribute does not
exist; the nil interface when the schema does not declare the key. -/
def Get (d : ResourceData sch) (key : String) : Value :=
  match sch.lookup key with
  | none => .nil
  | some t => (d.getRaw key).getD t.Zero

/-- `d.GetOk(key)`: the value and whether it exists and differs from the zero value of the
declared type. -/
def GetOk (d : ResourceData sch) (key : String) : Value × Bool :=
  match sch.lookup key with
  | none => (.nil, false)
  | some t =>
    match d.getRaw key with
    | none => (t.Zero, false)
    | some v => (v, decide (v ≠ t.Zero))

/-- `d.Set(key, value)`: writes the attribute when the schema declares the key and the value has
the declared type (a nil value writes the zero value); otherwise returns an error and writes
nothing (the SDK panics instead only under its test switch `TF_SCHEMA_PANIC_ON_ERROR`). -/
def Set (d : ResourceData sch) (key : String) (value : Value) :
    ResourceData sch × Option Error :=
  match sch.lookup key, value with
  | none, _ => (d, some (.msg ("Invalid address to set: " ++ key)))
  | some .TypeBool, .bool b => ({ d with bools := put d.bools key b }, none)
  | some .TypeBool, .nil => ({ d with bools := put d.bools key false }, none)
  | some .TypeString, .str s => ({ d with strings := put d.strings key s }, none)
  | some .TypeString, .nil => ({ d with strings := put d.strings key "" }, none)
  | some .TypeList, .list l => ({ d with lists := put d.lists key l }, none)
  | some .TypeList, .nil => ({ d with lists := put d.lists key [] }, none)
  | some _, _ => (d, some (.msg (key ++ ": value does not match the schema type")))

end ResourceData

/-! ## API records and clients -/

/-- Request record `PermissionV2` as the handlers fill it (`Type_` is the Go field `Type`). -/
structure PermissionV2 where
  Name : String
  Description : String
  Type_ : String
  Actions : String
  Prefix : String
  Buckets : List String
  deriving DecidableEq, Repr

/-- Response of `CreatePermissionV2` (only `ID` is read). -/
structure CreatePermissionV2Response where
  ID : String
  deriving DecidableEq, Repr

/-- Response of `GetPermissionV2` with the fields `resourcePermissionV2Read` reads (`Type_` is
the Go field `Type`). -/
structure GetPermissionV2Response where
  Id : String
  Name : String
  Description : String
  Type_ : String
  Actions : String
  Prefix : String
  Buckets : List String
  ReadyState : Bool
  deriving DecidableEq, Repr

/-- Request record `ServiceAccount` as `resourceServiceAccountCreate` fills it. -/
structure ServiceAccount where
  Name : String
  Description : String
  Permissions : List String
  deriving DecidableEq, Repr

/-- Response of `CreateServiceAccount` with the fields the handler reads. -/
structure CreateServiceAccountResponse where
  ID : String
  Access_key : String
  Access_Secret : String
  deriving DecidableEq, Repr

/-- One invocation of an API client method, with its arguments. -/
inductive ApiCall where
  | CreatePermissionV2 (input : PermissionV2)
  | GetPermissionV2 (permissionId : String)
  | UpdatePermissionV2 (permissionId : String) (input : PermissionV2)
  | DeletePermissionV2 (permissionId : String)
  | CreateServiceAccount (input : ServiceAccount)
  | DeleteServiceAccount (serviceAccountId : String)
  deriving DecidableEq, Repr

/-- The account API v2 client (`meta.(Client).AccAPIV2Client`) over a remote state `σ`.  The
responses of update and delete are discarded by the handlers. -/
structure AccAPIV2Client (σ : Type) where
  CreatePermissionV2 : σ → PermissionV2 → σ × Except Error CreatePermissionV2Response
  GetPermissionV2 : σ → String → σ × Except Error GetPermissionV2Response
  UpdatePermissionV2 : σ → String → PermissionV2 → σ × Except Error Unit
  DeletePermissionV2 : σ → String → σ × Except Error Unit

/-- The account API client (`meta.(Client).AccApiClient`) over a remote state `σ`. -/
structure AccApiClient (σ : Type) where
  CreateServiceAccount : σ → ServiceAccount → σ × Except Error CreateServiceAccountResponse
  DeleteServiceAccount : σ → String → σ × Except Error Unit

/-- The provider `Client` handed to every handler as `meta`. -/
structure Client (σ : Type) where
  AccAPIV2Client : AccAPIV2Client σ
  AccApiClient : AccApiClient σ

/-- Helpers declared outside the two source files. `CheckCredentials c` stands for
`CheckCredentials(Account, c)`; the handlers return the credentials error when it is true. -/
structure Env (σ : Type) where
  CheckCredentials : Client σ → Bool
  NameWithSuffix : String → String → String

/-- The remote side: the state behind the client and the log of client calls, oldest first. -/
structure World (σ : Type) where
  remote : σ
  calls : List ApiCall

/-- What a handler leaves behind: the resource data, the world and the returned error
(`none` is Go `nil`). -/
structure Outcome (sch : Schema) (σ : Type) where
  d : ResourceData sch
  w : World σ
  err : Option Error

/-! ## Client calls with logging -/

namespace World

variable {σ : Type}

/-- The call `conn.CreatePermissionV2(&input)`. -/
def CreatePermissionV2 (conn : AccAPIV2Client σ) (w : World σ) (input : PermissionV2) :
    World σ × Except Error CreatePermissionV2Response :=
  ({ remote := (conn.CreatePermissionV2 w.remote input).1,
     calls := w.calls ++ [ApiCall.CreatePermissionV2 input] },
   (conn.CreatePermissionV2 w.remote input).2)

/-- The call `conn.GetPermissionV2(permissionId)`. -/
def GetPermissionV2 (conn : AccAPIV2Client σ) (w : World σ) (permissionId : String) :
    World σ × Except Error GetPermissionV2Response :=
  ({ remote := (conn.GetPermissionV2 w.remote permissionId).1,
     calls := w.calls ++ [ApiCall.GetPermissionV2 permissionId] },
   (conn.GetPermissionV2 w.remote permissionId).2)

/-- The call `conn.UpdatePermissionV2(permissionId, &input)`. -/
def UpdatePermissionV2 (conn : AccAPIV2Client σ) (w : World σ) (permissionId : String)
    (input : PermissionV2) : World σ × Except Error Unit :=
  ({ remote := (conn.UpdatePermissionV2 w.remote permissionId input).1,
     calls := w.calls ++ [ApiCall.UpdatePermissionV2 permissionId input] },
   (conn.UpdatePermissionV2 w.remote permissionId input).2)

/-- The call `conn.DeletePermissionV2(permissionId)`. -/
def DeletePermissionV2 (conn : AccAPIV2Client σ) (w : World σ) (permissionId : String) :
    World σ × Except Error Unit :=
  ({ remote := (conn.DeletePermissionV2 w.remote permissionId).1,
     calls := w.calls ++ [ApiCall.DeletePermissionV2 permissionId] },
   (conn.DeletePermissionV2 w.remote permissionId).2)

/-- The call `conn.CreateServiceAccount(&input)`. -/
def CreateServiceAccount (conn : AccApiClient σ) (w : World σ) (input : ServiceAccount) :
    World σ × Except Error CreateServiceAccountResponse :=
  ({ remote := (conn.CreateServiceAccount w.remote input).1,
     calls := w.calls ++ [ApiCall.CreateServiceAccount input] },
   (conn.CreateServiceAccount w.remote input).2)

/-- The call `conn.DeleteServiceAccount(id)`. -/
def DeleteServiceAccount (conn : AccApiClient σ) (w : World σ) (serviceAccountId : String) :
    World σ × Except Error Unit :=
  ({ remote := (conn.DeleteServiceAccount w.remote serviceAccountId).1,
     calls := w.calls ++ [ApiCall.DeleteServiceAccount serviceAccountId] },
   (conn.DeleteServiceAccount w.remote serviceAccountId).2)

end World

/-! ## resource_permission_v2.go -/

section Permission

variable {σ : Type}

/-- The string list built by `for _, v := range l { buckets = append(buckets, v.(string)) }`
starting from the empty slice. -/
def appendAll (l : List String) : List String :=
  l.foldl (fun acc v => acc ++ [v]) []

/-- The request record built by `resourcePermissionV2Create` (source lines 86 to 115): the
scope chain tests the keys `all_buckets`, `bucket_prefix` and `bucket_names`. -/
def createPermissinInput (env : Env σ) (d : ResourceData PermissionV2Schema) :
    Option PermissionV2 := do
  let name := env.NameWithSuffix (← (d.Get "name").assertString)
    (← (d.Get "name_prefix").assertString)
  let description ← (d.Get "description").assertString
  let actions ← (d.Get "actions").assertString
  let pfx ← (d.Get "buckets_prefix").assertString
  let scope : String × List String ←
    if (d.GetOk "all_buckets").2 then
      pure ("all-buckets", [])
    else if (d.GetOk "bucket_prefix").2 then do
      let v ← (d.GetOk "bucket_prefix").1.assertString
      pure ("bucket-prefix", [] ++ [v])
    else if (d.GetOk "bucket_names").2 then do
      let bucketsList ← (d.Get "buckets").assertList
      pure ("bucket-names", appendAll bucketsList)
    else
      pure ("", [])
  pure { Name := name, Description := description, Type_ := scope.1, Actions := actions,
         Prefix := pfx, Buckets := scope.2 }

/-- The request record built by `resourcePermissionV2Update` (source lines 162 to 190): the
scope chain tests the keys `all_buckets`, `buckets_prefix` and `buckets`. -/
def updatePermissinInput (env : Env σ) (d : ResourceData PermissionV2Schema) :
    Option PermissionV2 := do
  let name := env.NameWithSuffix (← (d.Get "name").assertString)
    (← (d.Get "name_prefix").assertString)
  let description ← (d.Get "description").assertString
  let actions ← (d.Get "actions").assertString
  let pfx ← (d.Get "buckets_prefix").assertString
  let scope : String × List String ←
    if (d.GetOk "all_buckets").2 then
      pure ("all-buckets", [])
    else if (d.GetOk "buckets_prefix").2 then do
      let v ← (d.GetOk "buckets_prefix").1.assertString
      pure ("bucket-prefix", [] ++ [v])
    else if (d.GetOk "buckets").2 then do
      let bucketsList ← (d.Get "buckets").assertList
      pure ("bucket-names", appendAll bucketsList)
    else
      pure ("", [])
  pure { Name := name, Description := description, Type_ := scope.1, Actions := actions,
         Prefix := pfx, Buckets := scope.2 }

/-- The eight `d.Set` calls of `resourcePermissionV2Read` (source lines 141 to 148); the
returned errors are dropped, as in the source. -/
def readPermissionFields (d : ResourceData PermissionV2Schema) (resp : GetPermissionV2Response) :
    ResourceData PermissionV2Schema :=
  let d := (d.Set "id" (.str resp.Id)).1
  let d := (d.Set "name" (.str resp.Name)).1
  let d := (d.Set "description" (.str resp.Description)).1
  let d := (d.Set "type" (.str resp.Type_)).1
  let d := (d.Set "actions" (.str resp.Actions)).1
  let d := (d.Set "buckets_prefix" (.str resp.Prefix)).1
  let d := (d.Set "bucket_names" (.list resp.Buckets)).1
  let d := (d.Set "ready_state" (.bool resp.ReadyState)).1
  d

/-- Handler `resourcePermissionV2Read`. -/
def resourcePermissionV2Read (env : Env σ) (d : ResourceData PermissionV2Schema)
    (c : Client σ) (w : World σ) : Option (Outcome PermissionV2Schema σ) :=
  if env.CheckCredentials c then
    some ⟨d, w, some (.msg "credentials for account api(client_id, client_secret) are missing")⟩
  else
    let conn := c.AccAPIV2Client
    let permissionId := d.Id
    match World.GetPermissionV2 conn w permissionId with
    | (w1, .error err) => some ⟨d, w1, some (.wrap "error reading permission: " err)⟩
    | (w1, .ok resp) => some ⟨readPermissionFields d resp, w1, none⟩

/-- Handler `resourcePermissionV2Create`. -/
def resourcePermissionV2Create (env : Env σ) (d : ResourceData PermissionV2Schema)
    (c : Client σ) (w : World σ) : Option (Outcome PermissionV2Schema σ) :=
  if env.CheckCredentials c then
    some ⟨d, w, some (.msg "credentials for account api(client_id, client_secret) are missing")⟩
  else
    let conn := c.AccAPIV2Client
    match createPermissinInput env d with
    | none => none
    | some input =>
      match World.CreatePermissionV2 conn w input with
      | (w1, .error err) => some ⟨d, w1, some (.wrap "error creating permission: " err)⟩
      | (w1, .ok resp) => resourcePermissionV2Read env (d.SetId resp.ID) c w1

/-- Handler `resourcePermissionV2Update`. -/
def resourcePermissionV2Update (env : Env σ) (d : ResourceData PermissionV2Schema)
    (c : Client σ) (w : World σ) : Option (Outcome PermissionV2Schema σ) :=
  if env.CheckCredentials c then
    some ⟨d, w, some (.msg "credentials for account api(client_id, client_secret) are missing")⟩
  else
    let conn := c.AccAPIV2Client
    let permissionId := d.Id
    match updatePermissinInput env d with
    | none => none
    | some input =>
      match World.UpdatePermissionV2 conn w permissionId input with
      | (w1, .error err) => some ⟨d, w1, some (.wrap "error updating permission: " err)⟩
      | (w1, .ok _) => resourcePermissionV2Read env d c w1

/-- Handler `resourcePermissionV2Delete`. -/
def resourcePermissionV2Delete (env : Env σ) (d : ResourceData PermissionV2Schema)
    (c : Client σ) (w : World σ) : Option (Outcome PermissionV2Schema σ) :=
  if env.CheckCredentials c then
    some ⟨d, w, some (.msg "credentials for account api(client_id, client_secret) are missing")⟩
  else
    let conn := c.AccAPIV2Client
    match World.DeletePermissionV2 conn w d.Id with
    | (w1, .error err) => some ⟨d, w1, some (.wrap "error deleting permission: " err)⟩
    | (w1, .ok _) => some ⟨d, w1, none⟩

end Permission

/-! ## resource_service_account.go -/

section ServiceAccountHandlers

variable {σ : Type}

/-- Handler `resourceServiceAccountRead`: `d.Set("id", d.Id())`, then `nil`. -/
def resourceServiceAccountRead (_env : Env σ) (d : ResourceData ServiceAccountSchema)
    (_c : Client σ) (w : World σ) : Option (Outcome ServiceAccountSchema σ) :=
  some ⟨(d.Set "id" (.str d.Id)).1, w, none⟩

/-- The request record built by `resourceServiceAccountCreate` (source lines 56 to 69). -/
def serviceAccountInput (d : ResourceData ServiceAccountSchema) : Option ServiceAccount := do
  let service_account ← (d.Get "service_account").assertString
  let description ← (d.Get "description").assertString
  let permissionsList ← (d.Get "permissions").assertList
  let permissions := appendAll permissionsList
  pure { Name := service_account, Description := description, Permissions := permissions }

/-- Handler `resourceServiceAccountCreate`. -/
def resourceServiceAccountCreate (env : Env σ) (d : ResourceData ServiceAccountSchema)
    (c : Client σ) (w : World σ) : Option (Outcome ServiceAccountSchema σ) :=
  if env.CheckCredentials c then
    some ⟨d, w, some (.msg "credentials for account API(client_id, client_secret) are missing")⟩
  else
    let conn := c.AccApiClient
    match serviceAccountInput d with
    | none => none
    | some input =>
      match World.CreateServiceAccount conn w input with
      | (w1, .error err) => some ⟨d, w1, some (.wrap "error creating service account: " err)⟩
      | (w1, .ok resp) =>
        let d := d.SetId resp.ID
        let d := (d.Set "access_key" (.str resp.Access_key)).1
        let d := (d.Set "access_secret" (.str resp.Access_Secret)).1
        resourceServiceAccountRead env d c w1

/-- Handler `resourceServiceAccountUpdate`: returns `nil` and does nothing else. -/
def resourceServiceAccountUpdate (_env : Env σ) (d : ResourceData ServiceAccountSchema)
    (_c : Client σ) (w : World σ) : Option (Outcome ServiceAccountSchema σ) :=
  some ⟨d, w, none⟩

/-- Handler `resourceServiceAccountDelete`. -/
def resourceServiceAccountDelete (env : Env σ) (d : ResourceData ServiceAccountSchema)
    (c : Client σ) (w : World σ) : Option (Outcome ServiceAccountSchema σ) :=
  if env.CheckCredentials c then
    some ⟨d, w, some (.msg "credentials for account api(client_id, client_secret) are missing")⟩
  else
    let conn := c.AccApiClient
    match World.DeleteServiceAccount conn w d.Id with
    | (w1, .error err) => some ⟨d, w1, some (.wrap "error deleting service account: " err)⟩
    | (w1, .ok _) => some ⟨d, w1, none⟩

end ServiceAccountHandlers

/-! ## Validation of the `actions` attribute -/

/-- The validator `validation.StringInSlice(valid, ignoreCase)` of the plugin SDK, returning
warnings and errors: a non-string is an error; a string passes when it equals an element of
`valid`, or, with `ignoreCase`, when `strings.EqualFold` (taken as a parameter) relates them. -/
def StringInSlice (EqualFold : String → String → Bool) (valid : List String)
    (ignoreCase : Bool) (i : Value) (k : String) : List String × List Error :=
  match i with
  | .str v =>
    if valid.any (fun str => decide (v = str) || (ignoreCase && EqualFold v str)) then
      ([], [])
    else
      ([], [.msg ("expected " ++ k ++ " to be one of [" ++ " ".intercalate valid ++ "], got "
        ++ v)])
  | _ => ([], [.msg ("expected type of " ++ k ++ " to be string")])

/-- The `ValidateFunc` of the `actions` attribute (source lines 43 to 47). -/
def actionsValidateFunc (EqualFold : String → String → Bool) (i : Value) (k : String) :
    List String × List Error :=
  StringInSlice EqualFold ["all-operations", "read-only", "write-only"] false i k

/-- Submission of a new permission through the plugin SDK (an external library, embedded here
from its contract, not from the two source files): the SDK runs the schema validation of the
configuration, here the `ValidateFunc` of `actions`, and invokes the Create handler only when
validation returned no error; otherwise the first validation error is returned and no handler
runs. -/
def submitPermissionV2 {σ : Type} (EqualFold : String → String → Bool) (env : Env σ)
    (d : ResourceData PermissionV2Schema) (c : Client σ) (w : World σ) :
    Option (Outcome PermissionV2Schema σ) :=
  match (actionsValidateFunc EqualFold (d.Get "actions") "actions").2 with
  | [] => resourcePermissionV2Create env d c w
  | e :: _ => some ⟨d, w, some e⟩

/-! ## A stub client and sample configurations -/

/-- A stub account API v2 client over one optional stored record: create stores the submitted
record and assigns `perm-123`; get returns the stored record under that identifier; update
replaces it; delete removes it. -/
def stubAccAPIV2Client : AccAPIV2Client (Option PermissionV2) where
  CreatePermissionV2 := fun _ input => (some input, .ok ⟨"perm-123"⟩)
  GetPermissionV2 := fun s permissionId =>
    match s with
    | some r =>
      if permissionId = "perm-123" then
        (s, .ok ⟨permissionId, r.Name, r.Description, r.Type_, r.Actions, r.Prefix, r.Buckets,
          true⟩)
      else (s, .error (.msg "permission not found"))
    | none => (s, .error (.msg "permission not found"))
  UpdatePermissionV2 := fun _ _ input => (some input, .ok ())
  DeletePermissionV2 := fun _ _ => (none, .ok ())

/-- A stub account API client whose create answers `sa-1`, `AK1`, `SK1`. -/
def stubAccApiClient : AccApiClient (Option PermissionV2) where
  CreateServiceAccount := fun s _ => (s, .ok ⟨"sa-1", "AK1", "SK1"⟩)
  DeleteServiceAccount := fun s _ => (s, .ok ())

/-- The stub provider client. -/
def stubClient : Client (Option PermissionV2) :=
  ⟨stubAccAPIV2Client, stubAccApiClient⟩

/-- Credentials present; `NameWithSuffix` returns the name when it is set and the name prefix
otherwise. -/
def stubEnv : Env (Option PermissionV2) where
  CheckCredentials := fun _ => false
  NameWithSuffix := fun name namePrefix => if name = "" then namePrefix else name

/-- The stub environment with the account credentials missing. -/
def stubEnvNoCredentials : Env (Option PermissionV2) where
  CheckCredentials := fun _ => true
  NameWithSuffix := fun name namePrefix => if name = "" then namePrefix else name

/-- An empty remote side with an empty call log. -/
def emptyWorld : World (Option PermissionV2) := ⟨none, []⟩

/-- A resource data with no identifier and no attribute. -/
def emptyData (sch : Schema) : ResourceData sch :=
  ⟨"", fun _ => none, fun _ => none, fun _ => none⟩

/-- Configuration: name `p1`, actions `read-only`, buckets `b1`, `b2`. -/
def bucketNamesConfig : ResourceData PermissionV2Schema :=
  { emptyData PermissionV2Schema with
    strings := put (put (fun _ => none) "name" "p1") "actions" "read-only"
    lists := put (fun _ => none) "buckets" ["b1", "b2"] }

/-- Configuration: name `p2`, actions `read-only`, buckets_prefix `logs-`. -/
def bucketPrefixConfig : ResourceData PermissionV2Schema :=
  { emptyData PermissionV2Schema with
    strings := put (put (put (fun _ => none) "name" "p2") "actions" "read-only")
      "buckets_prefix" "logs-" }

/-- Configuration: name `p3`, actions `all-operations`, all_buckets true together with a
prefix and a bucket list. -/
def allBucketsConfig : ResourceData PermissionV2Schema :=
  { emptyData PermissionV2Schema with
    bools := put (fun _ => none) "all_buckets" true
    strings := put (put (put (fun _ => none) "name" "p3") "actions" "all-operations")
      "buckets_prefix" "logs-"
    lists := put (fun _ => none) "buckets" ["b1"] }

/-- Configuration: service_account `svc1`, permissions `perm-123`. -/
def serviceAccountConfig : ResourceData ServiceAccountSchema :=
  { emptyData ServiceAccountSchema with
    strings := put (fun _ => none) "service_account" "svc1"
    lists := put (fun _ => none) "permissions" ["perm-123"] }

/-- Stored state: identifier `perm-123` with a bucket list recorded earlier. -/
def staleData : ResourceData PermissionV2Schema :=
  { emptyData PermissionV2Schema with
    id := "perm-123"
    strings := put (put (fun _ => none) "name" "p1") "id" "perm-123"
    lists := put (fun _ => none) "buckets" ["old-bucket"] }

/-- A remote side that holds a bucket-names permission over `b1`, `b2`. -/
def storedWorld : World (Option PermissionV2) :=
  ⟨some ⟨"p1", "shared", "bucket-names", "read-only", "", ["b1", "b2"]⟩, []⟩

/-- Configuration with actions `invalid-value`. -/
def invalidActionsConfig : ResourceData PermissionV2Schema :=
  { emptyData PermissionV2Schema with
    strings := put (put (fun _ => none) "name" "p4") "actions" "invalid-value"
    lists := put (fun _ => none) "buckets" ["b1"] }

/-- Stored service-account state: identifier `sa-1` with the credentials captured at creation
and a stale `id` attribute. -/
def serviceAccountState : ResourceData ServiceAccountSchema :=
  { emptyData ServiceAccountSchema with
    id := "sa-1"
    strings := put (put (put (put (fun _ => none) "service_account" "svc1") "access_key" "AK1")
      "access_secret" "SK1") "id" "stale"
    lists := put (fun _ => none) "permissions" ["perm-123"] }

/-- A stand-in for `strings.EqualFold` that relates every pair of strings. -/
def anyFold : String → String → Bool := fun _ _ => true

/-! ## Reading and writing attributes -/


theorem appendAll_foldl (l acc : List String) :
    l.foldl (fun acc v => acc ++ [v]) acc = acc ++ l := by
  induction l generalizing acc with
  | nil => simp
  | cons x xs ih => simp [List.foldl, ih]

theorem appendAll_eq (l : List String) : appendAll l = l := by
  simp [appendAll, appendAll_foldl]

namespace ResourceData

variable {sch : Schema}

theorem Get_string (d : ResourceData sch) (k : String)
    (h : sch.lookup k = some .TypeString) : d.Get k = .str ((d.strings k).getD "") := by
  unfold Get getRaw
  rw [h]
  cases d.strings k <;> rfl

theorem Get_bool (d : ResourceData sch) (k : String)
    (h : sch.lookup k = some .TypeBool) : d.Get k = .bool ((d.bools k).getD false) := by
  unfold Get getRaw
  rw [h]
  cases d.bools k <;> rfl

theorem Get_list (d : ResourceData sch) (k : String)
    (h : sch.lookup k = some .TypeList) : d.Get k = .list ((d.lists k).getD []) := by
  unfold Get getRaw
  rw [h]
  cases d.lists k <;> rfl

theorem GetOk_undeclared (d : ResourceData sch) (k : String)
    (h : sch.lookup k = none) : d.GetOk k = (.nil, false) := by
  unfold GetOk
  rw [h]

theorem GetOk_bool (d : ResourceData sch) (k : String)
    (h : sch.lookup k = some .TypeBool) :
    d.GetOk k = (.bool ((d.bools k).getD false), decide (d.bools k = some true)) := by
  unfold GetOk getRaw
  rw [h]
  cases d.bools k with
  | none => rfl
  | some b => cases b <;> rfl

theorem GetOk_string (d : ResourceData sch) (k : String)
    (h : sch.lookup k = some .TypeString) :
    d.GetOk k = (.str ((d.strings k).getD ""), decide ((d.strings k).getD "" ≠ "")) := by
  unfold GetOk getRaw
  rw [h]
  cases d.strings k with
  | none => simp [ValueType.Zero]
  | some s => simp [ValueType.Zero]

theorem GetOk_list (d : ResourceData sch) (k : String)
    (h : sch.lookup k = some .TypeList) :
    d.GetOk k = (.list ((d.lists k).getD []), decide ((d.lists k).getD [] ≠ [])) := by
  unfold GetOk getRaw
  rw [h]
  cases d.lists k with
  | none => simp [ValueType.Zero]
  | some s => simp [ValueType.Zero]

end ResourceData

theorem createPermissinInput_eq {σ : Type} (env : Env σ) (d : ResourceData PermissionV2Schema) :
    createPermissinInput env d = some
      { Name := env.NameWithSuffix ((d.strings "name").getD "") ((d.strings "name_prefix").getD "")
        Description := (d.strings "description").getD ""
        Type_ := if d.bools "all_buckets" = some true then "all-buckets" else ""
        Actions := (d.strings "actions").getD ""
        Prefix := (d.strings "buckets_prefix").getD ""
        Buckets := [] } := by
  unfold createPermissinInput
  rw [d.Get_string "name" rfl, d.Get_string "name_prefix" rfl, d.Get_string "description" rfl,
    d.Get_string "actions" rfl, d.Get_string "buckets_prefix" rfl,
    d.GetOk_bool "all_buckets" rfl, d.GetOk_undeclared "bucket_prefix" rfl,
    d.GetOk_undeclared "bucket_names" rfl]
  by_cases h : d.bools "all_buckets" = some true <;> simp [Value.assertString, h]

theorem updatePermissinInput_eq {σ : Type} (env : Env σ) (d : ResourceData PermissionV2Schema) :
    updatePermissinInput env d = some
      { Name := env.NameWithSuffix ((d.strings "name").getD "") ((d.strings "name_prefix").getD "")
        Description := (d.strings "description").getD ""
        Type_ :=
          if d.bools "all_buckets" = some true then "all-buckets"
          else if (d.strings "buckets_prefix").getD "" ≠ "" then "bucket-prefix"
          else if (d.lists "buckets").getD [] ≠ [] then "bucket-names"
          else ""
        Actions := (d.strings "actions").getD ""
        Prefix := (d.strings "buckets_prefix").getD ""
        Buckets :=
          if d.bools "all_buckets" = some true then []
          else if (d.strings "buckets_prefix").getD "" ≠ "" then
            [(d.strings "buckets_prefix").getD ""]
          else if (d.lists "buckets").getD [] ≠ [] then (d.lists "buckets").getD []
          else [] } := by
  unfold updatePermissinInput
  rw [d.Get_string "name" rfl, d.Get_string "name_prefix" rfl, d.Get_string "description" rfl,
    d.Get_string "actions" rfl, d.Get_string "buckets_prefix" rfl,
    d.GetOk_bool "all_buckets" rfl, d.GetOk_string "buckets_prefix" rfl,
    d.GetOk_list "buckets" rfl, d.Get_list "buckets" rfl]
  by_cases h : d.bools "all_buckets" = some true
  · simp [Value.assertString, h]
  · by_cases h2 : (d.strings "buckets_prefix").getD "" = ""
    · by_cases h3 : (d.lists "buckets").getD [] = []
      · simp [Value.assertString, Value.assertList, h, h2, h3]
      · simp [Value.assertString, Value.assertList, h, h2, h3, appendAll_eq]
    · simp [Value.assertString, h, h2]


/-! ## Permission handlers -/

/-- C1: when the credential check reports the account credentials missing, each of the
permission handlers Create, Read, Update and Delete returns the credentials-missing error and
leaves both the resource data and the world (remote state and call log) as they were, so no
client call is made. -/
theorem permission_handlers_missing_credentials {σ : Type} (env : Env σ)
    (d : ResourceData PermissionV2Schema) (c : Client σ) (w : World σ)
    (h : env.CheckCredentials c = true) :
    resourcePermissionV2Create env d c w = some ⟨d, w, some
        (.msg "credentials for account api(client_id, client_secret) are missing")⟩ ∧
    resourcePermissionV2Read env d c w = some ⟨d, w, some
        (.msg "credentials for account api(client_id, client_secret) are missing")⟩ ∧
    resourcePermissionV2Update env d c w = some ⟨d, w, some
        (.msg "credentials for account api(client_id, client_secret) are missing")⟩ ∧
    resourcePermissionV2Delete env d c w = some ⟨d, w, some
        (.msg "credentials for account api(client_id, client_secret) are missing")⟩ := by
  simp [resourcePermissionV2Create, resourcePermissionV2Read, resourcePermissionV2Update,
    resourcePermissionV2Delete, h]

/-- C1 witness: the stub environment without credentials on the bucket-names configuration. -/
theorem permission_handlers_missing_credentials_witness :
    stubEnvNoCredentials.CheckCredentials stubClient = true ∧
    (resourcePermissionV2Create stubEnvNoCredentials bucketNamesConfig stubClient emptyWorld =
        some ⟨bucketNamesConfig, emptyWorld, some
          (.msg "credentials for account api(client_id, client_secret) are missing")⟩ ∧
      resourcePermissionV2Read stubEnvNoCredentials bucketNamesConfig stubClient emptyWorld =
        some ⟨bucketNamesConfig, emptyWorld, some
          (.msg "credentials for account api(client_id, client_secret) are missing")⟩ ∧
      resourcePermissionV2Update stubEnvNoCredentials bucketNamesConfig stubClient emptyWorld =
        some ⟨bucketNamesConfig, emptyWorld, some
          (.msg "credentials for account api(client_id, client_secret) are missing")⟩ ∧
      resourcePermissionV2Delete stubEnvNoCredentials bucketNamesConfig stubClient emptyWorld =
        some ⟨bucketNamesConfig, emptyWorld, some
          (.msg "credentials for account api(client_id, client_secret) are missing")⟩) :=
  ⟨rfl, permission_handlers_missing_credentials stubEnvNoCredentials bucketNamesConfig stubClient
    emptyWorld rfl⟩

/-- The calls a permission Read adds to the log: at most one `GetPermissionV2`. -/
theorem resourcePermissionV2Read_calls {σ : Type} (env : Env σ)
    (d : ResourceData PermissionV2Schema) (c : Client σ) (w : World σ) :
    ∃ out rest, resourcePermissionV2Read env d c w = some out ∧
      out.w.calls = w.calls ++ rest ∧ ∀ x ∈ rest, ∃ pid, x = ApiCall.GetPermissionV2 pid := by
  unfold resourcePermissionV2Read
  by_cases hc : env.CheckCredentials c = true
  · refine ⟨⟨d, w, some
      (.msg "credentials for account api(client_id, client_secret) are missing")⟩, [], ?_, ?_, ?_⟩
      <;> simp [hc]
  · simp only [hc, if_false, Bool.false_eq_true]
    unfold World.GetPermissionV2
    cases hg : (c.AccAPIV2Client.GetPermissionV2 w.remote d.Id).2 with
    | error e => exact ⟨_, [ApiCall.GetPermissionV2 d.Id], rfl, rfl, by simp⟩
    | ok r => exact ⟨_, [ApiCall.GetPermissionV2 d.Id], rfl, rfl, by simp⟩

/-- With credentials present, Create returns and logs exactly one `CreatePermissionV2` call,
carrying the record built from the configuration, followed only by reads. -/
theorem resourcePermissionV2Create_calls {σ : Type} (env : Env σ)
    (d : ResourceData PermissionV2Schema) (c : Client σ) (w : World σ) (input : PermissionV2)
    (hc : env.CheckCredentials c = false) (hin : createPermissinInput env d = some input) :
    ∃ out rest, resourcePermissionV2Create env d c w = some out ∧
      out.w.calls = w.calls ++ ApiCall.CreatePermissionV2 input :: rest ∧
      ∀ x ∈ rest, ∃ pid, x = ApiCall.GetPermissionV2 pid := by
  unfold resourcePermissionV2Create
  simp only [hc, if_false, Bool.false_eq_true, hin]
  unfold World.CreatePermissionV2
  cases hr : (c.AccAPIV2Client.CreatePermissionV2 w.remote input).2 with
  | error e => exact ⟨_, [], rfl, rfl, by simp⟩
  | ok resp =>
    obtain ⟨out, rest, ho, hcalls, hrest⟩ :=
      resourcePermissionV2Read_calls env (d.SetId resp.ID) c
        ⟨(c.AccAPIV2Client.CreatePermissionV2 w.remote input).1,
          w.calls ++ [ApiCall.CreatePermissionV2 input]⟩
    refine ⟨out, rest, ho, ?_, hrest⟩
    rw [hcalls]
    simp

/-- With credentials present, Update returns and logs exactly one `UpdatePermissionV2` call,
carrying the record built from the configuration, followed only by reads. -/
theorem resourcePermissionV2Update_calls {σ : Type} (env : Env σ)
    (d : ResourceData PermissionV2Schema) (c : Client σ) (w : World σ) (input : PermissionV2)
    (hc : env.CheckCredentials c = false) (hin : updatePermissinInput env d = some input) :
    ∃ out rest, resourcePermissionV2Update env d c w = some out ∧
      out.w.calls = w.calls ++ ApiCall.UpdatePermissionV2 d.Id input :: rest ∧
      ∀ x ∈ rest, ∃ pid, x = ApiCall.GetPermissionV2 pid := by
  unfold resourcePermissionV2Update
  simp only [hc, if_false, Bool.false_eq_true, hin]
  unfold World.UpdatePermissionV2
  cases hr : (c.AccAPIV2Client.UpdatePermissionV2 w.remote d.Id input).2 with
  | error e => exact ⟨_, [], rfl, rfl, by simp⟩
  | ok resp =>
    obtain ⟨out, rest, ho, hcalls, hrest⟩ :=
      resourcePermissionV2Read_calls env d c
        ⟨(c.AccAPIV2Client.UpdatePermissionV2 w.remote d.Id input).1,
          w.calls ++ [ApiCall.UpdatePermissionV2 d.Id input]⟩
    refine ⟨out, rest, ho, ?_, hrest⟩
    rw [hcalls]
    simp

/-- C2: with credentials present and `all_buckets` true, whatever `buckets_prefix` and
`buckets` hold, Create returns and the one `CreatePermissionV2` request it logs has type
`all-buckets`, and Update returns and the one `UpdatePermissionV2` request it logs has type
`all-buckets`; the only later calls are reads. -/
theorem all_buckets_request_type {σ : Type} (env : Env σ)
    (d : ResourceData PermissionV2Schema) (c : Client σ) (w : World σ)
    (hc : env.CheckCredentials c = false) (h : d.Get "all_buckets" = .bool true) :
    (∃ out input rest, resourcePermissionV2Create env d c w = some out ∧
      out.w.calls = w.calls ++ ApiCall.CreatePermissionV2 input :: rest ∧
      input.Type_ = "all-buckets" ∧ ∀ x ∈ rest, ∃ pid, x = ApiCall.GetPermissionV2 pid) ∧
    (∃ out input rest, resourcePermissionV2Update env d c w = some out ∧
      out.w.calls = w.calls ++ ApiCall.UpdatePermissionV2 d.Id input :: rest ∧
      input.Type_ = "all-buckets" ∧ ∀ x ∈ rest, ∃ pid, x = ApiCall.GetPermissionV2 pid) := by
  have hb : d.bools "all_buckets" = some true := by
    rw [d.Get_bool "all_buckets" rfl] at h
    cases hv : d.bools "all_buckets" with
    | none => rw [hv] at h; simp at h
    | some b => rw [hv] at h; simpa using h
  constructor
  · obtain ⟨out, rest, ho, hcalls, hrest⟩ :=
      resourcePermissionV2Create_calls env d c w _ hc (createPermissinInput_eq env d)
    exact ⟨out, _, rest, ho, hcalls, by simp [hb], hrest⟩
  · obtain ⟨out, rest, ho, hcalls, hrest⟩ :=
      resourcePermissionV2Update_calls env d c w _ hc (updatePermissinInput_eq env d)
    exact ⟨out, _, rest, ho, hcalls, by simp [hb], hrest⟩

/-- C2 witness: `all_buckets` true together with a prefix and a bucket list, against the stub
client. -/
theorem all_buckets_request_type_witness :
    stubEnv.CheckCredentials stubClient = false ∧
    allBucketsConfig.Get "all_buckets" = .bool true ∧
    ((∃ out input rest,
        resourcePermissionV2Create stubEnv allBucketsConfig stubClient emptyWorld = some out ∧
        out.w.calls = emptyWorld.calls ++ ApiCall.CreatePermissionV2 input :: rest ∧
        input.Type_ = "all-buckets" ∧ ∀ x ∈ rest, ∃ pid, x = ApiCall.GetPermissionV2 pid) ∧
      (∃ out input rest,
        resourcePermissionV2Update stubEnv allBucketsConfig stubClient emptyWorld = some out ∧
        out.w.calls =
          emptyWorld.calls ++ ApiCall.UpdatePermissionV2 allBucketsConfig.Id input :: rest ∧
        input.Type_ = "all-buckets" ∧ ∀ x ∈ rest, ∃ pid, x = ApiCall.GetPermissionV2 pid)) :=
  ⟨rfl, rfl, all_buckets_request_type stubEnv allBucketsConfig stubClient emptyWorld rfl rfl⟩

/-- C3: on the configuration name `p1`, actions `read-only`, buckets `b1`, `b2`, with
credentials present and the stub client that assigns `perm-123` and returns what it stored,
Create sends a `CreatePermissionV2` request with an empty type and an empty bucket list (the
scope chain of Create tests the undeclared keys `bucket_prefix` and `bucket_names`); the
resulting state has id `perm-123`, type the empty string and the configured buckets. -/
theorem create_bucket_names_sends_empty_scope :
    (resourcePermissionV2Create stubEnv bucketNamesConfig stubClient emptyWorld).map
        (fun o => (o.w.calls, o.d.Id, o.d.Get "id", o.d.Get "type", o.d.Get "buckets", o.err)) =
      some ([ApiCall.CreatePermissionV2 ⟨"p1", "", "", "read-only", "", []⟩,
          ApiCall.GetPermissionV2 "perm-123"],
        "perm-123", .str "perm-123", .str "", .list ["b1", "b2"], none) := by
  rfl

/-- C4: on the configuration name `p2`, actions `read-only`, buckets_prefix `logs-`, the
request built by Create has an empty type and no buckets, while the request built by Update
has type `bucket-prefix` and buckets `logs-`; the same divergence shows on the bucket-names
configuration. -/
theorem create_update_scope_differ :
    createPermissinInput stubEnv bucketPrefixConfig =
        some ⟨"p2", "", "", "read-only", "logs-", []⟩ ∧
    updatePermissinInput stubEnv bucketPrefixConfig =
        some ⟨"p2", "", "bucket-prefix", "read-only", "logs-", ["logs-"]⟩ ∧
    createPermissinInput stubEnv bucketNamesConfig =
        some ⟨"p1", "", "", "read-only", "", []⟩ ∧
    updatePermissinInput stubEnv bucketNamesConfig =
        some ⟨"p1", "", "bucket-names", "read-only", "", ["b1", "b2"]⟩ :=
  ⟨rfl, rfl, rfl, rfl⟩


/-- The effect of the eight `d.Set` calls of Read: the declared keys are written, and the
write under the undeclared key `bucket_names` is dropped, so the list store is untouched. -/
theorem readPermissionFields_eq (d : ResourceData PermissionV2Schema)
    (resp : GetPermissionV2Response) :
    readPermissionFields d resp =
      { id := d.id
        bools := put d.bools "ready_state" resp.ReadyState
        strings := put (put (put (put (put (put d.strings "id" resp.Id) "name" resp.Name)
          "description" resp.Description) "type" resp.Type_) "actions" resp.Actions)
          "buckets_prefix" resp.Prefix
        lists := d.lists } := by
  rfl

/-- A permission Read never changes what `d.Get("buckets")` returns. -/
theorem readPermissionFields_buckets (d : ResourceData PermissionV2Schema)
    (resp : GetPermissionV2Response) :
    (readPermissionFields d resp).Get "buckets" = d.Get "buckets" := by
  rw [@ResourceData.Get_list PermissionV2Schema _ "buckets" rfl,
    @ResourceData.Get_list PermissionV2Schema _ "buckets" rfl, readPermissionFields_eq]

/-- C5: on a state with id `perm-123` whose recorded bucket list is `old-bucket`, with
credentials present and a remote record whose buckets are `b1`, `b2`, Read succeeds and sets
name, description, type, actions, buckets_prefix and ready_state from the record, but the
bucket list of the state is still `old-bucket` (Read writes the record's buckets under the
undeclared key `bucket_names`). -/
theorem read_leaves_buckets_stale :
    (resourcePermissionV2Read stubEnv staleData stubClient storedWorld).map
        (fun o => (o.err, o.w.calls, o.d.Get "id", o.d.Get "name", o.d.Get "description",
          o.d.Get "type", o.d.Get "actions", o.d.Get "buckets_prefix", o.d.Get "ready_state",
          o.d.Get "buckets", o.d.Get "bucket_names")) =
      some (none, [ApiCall.GetPermissionV2 "perm-123"], .str "perm-123", .str "p1",
        .str "shared", .str "bucket-names", .str "read-only", .str "", .bool true,
        .list ["old-bucket"], .nil) := by
  rfl

/-- C6: with credentials present, when `GetPermissionV2` fails for the state id, Read returns
the client error wrapped as `error reading permission: ` and leaves the resource data
unchanged (one read call logged); and when `DeletePermissionV2` succeeds, Delete returns no
error, leaves the resource data unchanged and logs exactly one `DeletePermissionV2` call with
the state id. -/
theorem permission_read_failure_and_delete_keep_state {σ : Type} (env : Env σ)
    (d : ResourceData PermissionV2Schema) (c : Client σ) (w : World σ)
    (hc : env.CheckCredentials c = false) :
    (∀ e, (c.AccAPIV2Client.GetPermissionV2 w.remote d.Id).2 = .error e →
      resourcePermissionV2Read env d c w = some
        ⟨d, ⟨(c.AccAPIV2Client.GetPermissionV2 w.remote d.Id).1,
            w.calls ++ [ApiCall.GetPermissionV2 d.Id]⟩,
          some (.wrap "error reading permission: " e)⟩) ∧
    ((c.AccAPIV2Client.DeletePermissionV2 w.remote d.Id).2 = .ok () →
      resourcePermissionV2Delete env d c w = some
        ⟨d, ⟨(c.AccAPIV2Client.DeletePermissionV2 w.remote d.Id).1,
            w.calls ++ [ApiCall.DeletePermissionV2 d.Id]⟩, none⟩) := by
  constructor
  · intro e he
    unfold resourcePermissionV2Read
    simp only [hc, if_false, Bool.false_eq_true]
    unfold World.GetPermissionV2
    simp only [he]
  · intro hd
    unfold resourcePermissionV2Delete
    simp only [hc, if_false, Bool.false_eq_true]
    unfold World.DeletePermissionV2
    simp only [hd]

/-- C6 witness: Delete of `perm-123` on the stub that holds it, then Read of the same id on
the world Delete left behind. -/
theorem permission_read_failure_and_delete_keep_state_witness :
    stubEnv.CheckCredentials stubClient = false ∧
    resourcePermissionV2Delete stubEnv staleData stubClient storedWorld =
      some ⟨staleData, ⟨none, [ApiCall.DeletePermissionV2 "perm-123"]⟩, none⟩ ∧
    resourcePermissionV2Read stubEnv staleData stubClient
        ⟨none, [ApiCall.DeletePermissionV2 "perm-123"]⟩ =
      some ⟨staleData,
        ⟨none, [ApiCall.DeletePermissionV2 "perm-123", ApiCall.GetPermissionV2 "perm-123"]⟩,
        some (.wrap "error reading permission: " (.msg "permission not found"))⟩ :=
  ⟨rfl,
    (permission_read_failure_and_delete_keep_state stubEnv staleData stubClient storedWorld
      rfl).2 rfl,
    (permission_read_failure_and_delete_keep_state stubEnv staleData stubClient
      ⟨none, [ApiCall.DeletePermissionV2 "perm-123"]⟩ rfl).1 _ rfl⟩

/-! ## Service-account handlers -/

/-- C7: with credentials present, on a configuration with service_account `n`, description
`dd` and permissions `P`, against a client whose `CreateServiceAccount` answers the request
`(n, dd, P)` with `(i, k, s)`: Create returns without error, logs exactly one
`CreateServiceAccount` call whose input is `(n, dd, P)`, and the resulting state has
identifier and id `i`, access_key `k` and access_secret `s`. -/
theorem service_account_create_captures_credentials {σ : Type} (env : Env σ)
    (d : ResourceData ServiceAccountSchema) (c : Client σ) (w : World σ)
    (n dd : String) (P : List String) (i k s : String)
    (hc : env.CheckCredentials c = false)
    (hn : d.Get "service_account" = .str n) (hd : d.Get "description" = .str dd)
    (hp : d.Get "permissions" = .list P)
    (hr : (c.AccApiClient.CreateServiceAccount w.remote ⟨n, dd, P⟩).2 = .ok ⟨i, k, s⟩) :
    ∃ out, resourceServiceAccountCreate env d c w = some out ∧
      out.err = none ∧
      out.w.calls = w.calls ++ [ApiCall.CreateServiceAccount ⟨n, dd, P⟩] ∧
      out.d.Id = i ∧ out.d.Get "id" = .str i ∧
      out.d.Get "access_key" = .str k ∧ out.d.Get "access_secret" = .str s := by
  have hin : serviceAccountInput d = some ⟨n, dd, P⟩ := by
    unfold serviceAccountInput
    rw [hn, hd, hp]
    simp [Value.assertString, Value.assertList, appendAll_eq]
  unfold resourceServiceAccountCreate
  simp only [hc, if_false, Bool.false_eq_true, hin]
  unfold World.CreateServiceAccount
  simp only [hr]
  refine ⟨_, rfl, rfl, rfl, rfl, ?_, ?_, ?_⟩
  · rw [@ResourceData.Get_string ServiceAccountSchema _ "id" rfl]; rfl
  · rw [@ResourceData.Get_string ServiceAccountSchema _ "access_key" rfl]; rfl
  · rw [@ResourceData.Get_string ServiceAccountSchema _ "access_secret" rfl]; rfl

/-- C7 witness: service_account `svc1`, permissions `perm-123`, stub answer `sa-1`, `AK1`,
`SK1`. -/
theorem service_account_create_captures_credentials_witness :
    ∃ out, resourceServiceAccountCreate stubEnv serviceAccountConfig stubClient emptyWorld =
        some out ∧
      out.err = none ∧
      out.w.calls =
        emptyWorld.calls ++ [ApiCall.CreateServiceAccount ⟨"svc1", "", ["perm-123"]⟩] ∧
      out.d.Id = "sa-1" ∧ out.d.Get "id" = .str "sa-1" ∧
      out.d.Get "access_key" = .str "AK1" ∧ out.d.Get "access_secret" = .str "SK1" :=
  service_account_create_captures_credentials stubEnv serviceAccountConfig stubClient emptyWorld
    "svc1" "" ["perm-123"] "sa-1" "AK1" "SK1" rfl rfl rfl rfl rfl

/-- C8: for every environment (credentials present or not), client, world and resource data,
the service-account Read returns without error, leaves the world untouched (no client call),
keeps the identifier, sets the `id` attribute to the identifier and changes no other
attribute; in particular access_key and access_secret read as before. -/
theorem service_account_read_only_affirms_id {σ : Type} (env : Env σ)
    (d : ResourceData ServiceAccountSchema) (c : Client σ) (w : World σ) :
    ∃ out, resourceServiceAccountRead env d c w = some out ∧
      out.err = none ∧ out.w = w ∧ out.d.Id = d.Id ∧ out.d.Get "id" = .str d.Id ∧
      out.d.bools = d.bools ∧ out.d.lists = d.lists ∧
      (∀ key, key ≠ "id" → out.d.strings key = d.strings key ∧ out.d.Get key = d.Get key) ∧
      out.d.Get "access_key" = d.Get "access_key" ∧
      out.d.Get "access_secret" = d.Get "access_secret" := by
  have hkey : ∀ key, key ≠ "id" →
      ((d.Set "id" (.str d.Id)).1.strings key = d.strings key ∧
        (d.Set "id" (.str d.Id)).1.Get key = d.Get key) := by
    intro key hk
    have hs : (d.Set "id" (.str d.Id)).1.strings key = d.strings key := by
      show put d.strings "id" d.Id key = d.strings key
      simp [put, hk]
    refine ⟨hs, ?_⟩
    unfold ResourceData.Get ResourceData.getRaw
    rw [hs]
    rfl
  refine ⟨_, rfl, rfl, rfl, rfl, ?_, rfl, rfl, hkey, (hkey _ (by decide)).2,
    (hkey _ (by decide)).2⟩
  rw [@ResourceData.Get_string ServiceAccountSchema _ "id" rfl]
  rfl

/-- C8 witness: the stored service-account state, credentials missing, a remote side that holds
a record. -/
theorem service_account_read_only_affirms_id_witness :
    ∃ out, resourceServiceAccountRead stubEnvNoCredentials serviceAccountState stubClient
        storedWorld = some out ∧
      out.err = none ∧ out.w = storedWorld ∧ out.d.Id = "sa-1" ∧ out.d.Get "id" = .str "sa-1" ∧
      out.d.Get "access_key" = .str "AK1" ∧ out.d.Get "access_secret" = .str "SK1" := by
  obtain ⟨out, h1, h2, h3, h4, h5, _, _, _, h9, h10⟩ :=
    service_account_read_only_affirms_id stubEnvNoCredentials serviceAccountState stubClient
      storedWorld
  exact ⟨out, h1, h2, h3, h4, h5, h9.trans rfl, h10.trans rfl⟩

/-- C9: the service-account Update returns without error and leaves the resource data and the
world (remote state and call log) exactly as they were, for every environment, client, world
and resource data. -/
theorem service_account_update_is_noop {σ : Type} (env : Env σ)
    (d : ResourceData ServiceAccountSchema) (c : Client σ) (w : World σ) :
    resourceServiceAccountUpdate env d c w = some ⟨d, w, none⟩ :=
  rfl


/-! ## Validation of the action mode -/

/-- C10: whatever `strings.EqualFold` is, the validator of `actions` returns no error on a
string exactly when the string is one of `all-operations`, `read-only`, `write-only`; and for
a configuration whose `actions` is any other string, submission returns a validation error
with the resource data and the world (remote state and call log) untouched, so before any
client call. -/
theorem actions_validated_before_any_call {σ : Type} (EqualFold : String → String → Bool) :
    (∀ s k : String, (actionsValidateFunc EqualFold (.str s) k).2 = [] ↔
      s ∈ ["all-operations", "read-only", "write-only"]) ∧
    (∀ (env : Env σ) (d : ResourceData PermissionV2Schema) (c : Client σ) (w : World σ)
      (s : String), d.Get "actions" = .str s →
      s ∉ ["all-operations", "read-only", "write-only"] →
      submitPermissionV2 EqualFold env d c w = some ⟨d, w, some
        (.msg ("expected actions to be one of [all-operations read-only write-only], got "
          ++ s))⟩) := by
  have hv : ∀ s k : String, (actionsValidateFunc EqualFold (.str s) k).2 = [] ↔
      s ∈ ["all-operations", "read-only", "write-only"] := by
    intro s k
    unfold actionsValidateFunc StringInSlice
    by_cases h : s ∈ ["all-operations", "read-only", "write-only"]
    · simp only [h, iff_true]
      simp only [List.mem_cons, List.mem_singleton, List.not_mem_nil, or_false] at h
      rcases h with h | h | h <;> simp [h]
    · simp only [h, iff_false]
      simp only [List.mem_cons, List.mem_singleton, List.not_mem_nil, or_false, not_or] at h
      simp [h.1, h.2.1, h.2.2]
  refine ⟨hv, ?_⟩
  intro env d c w s hs hn
  unfold submitPermissionV2
  rw [hs]
  unfold actionsValidateFunc StringInSlice
  simp only [List.mem_cons, List.mem_singleton, List.not_mem_nil, or_false, not_or] at hn
  simp [hn.1, hn.2.1, hn.2.2]
  rfl

/-- C10 witness: `read-only` passes the validator, `Read-Only` and `invalid-value` do not even
when the case-folding comparison relates every pair, and submitting `invalid-value` against
the stub returns the validation error with an empty call log. -/
theorem actions_validated_before_any_call_witness :
    (actionsValidateFunc anyFold (.str "read-only") "actions").2 = [] ∧
    (actionsValidateFunc anyFold (.str "Read-Only") "actions").2 ≠ [] ∧
    submitPermissionV2 anyFold stubEnv invalidActionsConfig stubClient emptyWorld =
      some ⟨invalidActionsConfig, emptyWorld, some
        (.msg ("expected actions to be one of [all-operations read-only write-only], got "
          ++ "invalid-value"))⟩ :=
  ⟨((@actions_validated_before_any_call (Option PermissionV2) anyFold).1 "read-only"
      "actions").2 (by decide),
    fun h => absurd
      (((@actions_validated_before_any_call (Option PermissionV2) anyFold).1 "Read-Only"
        "actions").1 h) (by decide),
    (@actions_validated_before_any_call (Option PermissionV2) anyFold).2 stubEnv
      invalidActionsConfig stubClient emptyWorld "invalid-value" rfl (by decide)⟩


end Lyvecloud
